import Mathlib

/-!
Shallow embedding of `cmd/policy-update-service.go` from
filetrust/ncfs-policy-update-service.

Conventions of the embedding:
* Time is modelled in whole Unix seconds (`Int`), matching the Go code's use
  of `time.Time.Unix()` on both the issuing side (`exp` claim) and the
  verifying side (jwt-go's `MapClaims.Valid`, which compares
  `TimeFunc().Unix()` against the numeric `exp` claim via `now <= exp`).
* The HMAC signature is modelled symbolically (ideal MAC): a signature value
  records exactly the key, the algorithm and the claims it was computed over,
  so two signatures are equal iff all three coincide.  The JWT wire encoding
  is modelled as the identity on the structured token: `verifyToken` consumes
  the structured token that `jwt.Parse` would recover from the string.
* `http.ResponseWriter` is modelled by a `Response` record; `WriteHeader` is
  effective only on the first call (net/http ignores a superfluous second
  `WriteHeader`), while body writes always append.  `http.Error w msg code`
  is `WriteHeader code` followed by writing `msg ++ "\n"`.
* Go `*int` struct fields become `Option Int`; `json.Decoder.Decode` into the
  `Policy` struct is modelled over an already-tokenised JSON object (a list of
  key/value pairs) with encoding/json's documented matching rule: field names
  match case-insensitively (the struct has no json tags), and with
  `DisallowUnknownFields` a key matching neither field aborts decoding with
  a `json: unknown field "k"` error.
-/

/-- JSON values as far as the `Policy` decoder and the JWT claims need them. -/
inductive Jval where
  | str (s : String)
  | num (n : Int)
  | boolean (b : Bool)
  | null
deriving DecidableEq, Repr

/-- The JWT claim set that `createToken` mints and `verifyToken` inspects.
`exp` is kept separately because jwt-go's `MapClaims.VerifyExpiresAt` only
treats a numeric `exp` as a bound; a missing (or non-numeric) `exp` claim is
accepted as unexpired (`VerifyExpiresAt` returns `req == false`, and the
required flag is false in `MapClaims.Valid`). -/
structure Claims where
  iss : Option Jval
  sub : Option Jval
  aud : Option Jval
  exp : Option Int
deriving DecidableEq, Repr

/-- Signing algorithms that can appear in a token header.  The Go code checks
`token.Method.(*jwt.SigningMethodHMAC)`, which covers HS256/384/512. -/
inductive Alg where
  | HS256
  | HS384
  | HS512
  | RS256
  | algNone
deriving DecidableEq, Repr

/-- Whether `token.Method.(*jwt.SigningMethodHMAC)` succeeds. -/
def Alg.isHMAC : Alg → Bool
  | .HS256 => true
  | .HS384 => true
  | .HS512 => true
  | _ => false

/-- Printed form of the `alg` header, used in the keyfunc's error message. -/
def Alg.name : Alg → String
  | .HS256 => "HS256"
  | .HS384 => "HS384"
  | .HS512 => "HS512"
  | .RS256 => "RS256"
  | .algNone => "none"

/-- An ideal-MAC signature: records the key and the signed content (header
algorithm plus claims).  Signature verification in `jwt.Parse` succeeds iff
the token's signature equals the MAC of the keyfunc's key over the token's
own header and claims. -/
structure Sig where
  key : String
  alg : Alg
  claims : Claims
deriving DecidableEq, Repr

/-- A parsed JWT: header algorithm, claim set, and the (optional) signature
carried on the wire. -/
structure Token where
  alg : Alg
  claims : Claims
  sig : Option Sig
deriving DecidableEq, Repr

/-- The process configuration read from the environment at startup
(`username` / `password`; the other variables do not enter these claims). -/
structure Config where
  username : String
  password : String
deriving DecidableEq, Repr

/-- `auth.Info` as the claims need it: the authenticated subject
(`UserName()` of `auth.NewDefaultUser`). -/
structure Identity where
  subject : String
deriving DecidableEq, Repr

/-- jwt-go `MapClaims.Valid` expiry check at time `now` (Unix seconds):
`verifyExp` is `if exp == 0 then !required else now <= exp`, with
`required = false`; a missing numeric `exp` is accepted. -/
def expValid (exp : Option Int) (now : Int) : Bool :=
  match exp with
  | none => true
  | some e => if e = 0 then true else decide (now ≤ e)

/-- The claim set built by `createToken` at issuance time `t`:
`iss "auth-app"`, `sub` = configured username, `aud "any"`,
`exp = t + 300` (five minutes in seconds). -/
def tokenClaims (cfg : Config) (t : Int) : Claims :=
  { iss := some (.str "auth-app")
    sub := some (.str cfg.username)
    aud := some (.str "any")
    exp := some (t + 300) }

/-- The token `createToken` signs at time `t`: HS256 over `tokenClaims`,
keyed by the hard-coded `"secret"`. -/
def createTokenAt (cfg : Config) (t : Int) : Token :=
  { alg := .HS256
    claims := tokenClaims cfg t
    sig := some { key := "secret", alg := .HS256, claims := tokenClaims cfg t } }

/-- Possible outcomes of `verifyToken`: a normal return of `auth.Info`, a
normal error return, or a runtime panic (the unchecked type assertion
`claims["sub"].(string)`). -/
inductive VerifyOutcome where
  | ok (ident : Identity)
  | err (msg : String)
  | panic
deriving DecidableEq, Repr

/-- `verifyToken` (lines 180-198): `jwt.Parse` with a keyfunc that rejects
non-HMAC methods and otherwise returns `[]byte("secret")`; `jwt.Parse`
verifies the signature with that key and validates the claims (expiry)
against the current time; on success the handler builds
`auth.NewDefaultUser(claims["sub"].(string), "", nil, nil)`, an unchecked
type assertion that panics when the `sub` claim is absent or not a string. -/
def verifyToken (tok : Token) (now : Int) : VerifyOutcome :=
  if tok.alg.isHMAC = false then
    .err ("Unexpected signing method: " ++ tok.alg.name)
  else if tok.sig ≠ some { key := "secret", alg := tok.alg, claims := tok.claims } then
    .err "signature is invalid"
  else if expValid tok.claims.exp now = false then
    .err "Token is expired"
  else
    match tok.claims.sub with
    | some (.str s) => .ok { subject := s }
    | _ => .panic

/-- `validateUser` (lines 172-178): succeed with
`auth.NewDefaultUser(usr, "1", nil, nil)` iff both supplied fields equal the
configured pair, else return the generic error `Invalid credentials`. -/
def validateUser (cfg : Config) (usr pass : String) : Except String Identity :=
  if usr = cfg.username ∧ pass = cfg.password then
    .ok { subject := usr }
  else
    .error "Invalid credentials"

/-- `http.ResponseWriter`, observed at the status/body level.  `status` is
meaningful once `wroteHeader` is set; a response left untouched by a handler
goes out as 200 with an empty body. -/
structure Response where
  wroteHeader : Bool
  status : Nat
  body : String
deriving DecidableEq, Repr

/-- The writer handed to a handler before anything was written. -/
def Response.fresh : Response :=
  { wroteHeader := false, status := 200, body := "" }

/-- `w.WriteHeader(code)`: only the first call takes effect; net/http logs
and ignores a superfluous second call. -/
def Response.writeHeader (w : Response) (code : Nat) : Response :=
  if w.wroteHeader then w else { w with wroteHeader := true, status := code }

/-- `w.Write(b)`: an implicit `WriteHeader(200)` if none happened yet, then
append to the body. -/
def Response.write (w : Response) (s : String) : Response :=
  let w1 := w.writeHeader 200
  { w1 with body := w1.body ++ s }

/-- `http.Error(w, msg, code)`: `WriteHeader(code)` then `Fprintln(w, msg)`.
Even when the status write is superfluous, the message is still appended to
the body. -/
def Response.httpError (w : Response) (msg : String) (code : Nat) : Response :=
  (w.writeHeader code).write (msg ++ "\n")

/-- `jwt-go`'s `Token.SignedString` as used in `createToken`: the key
argument is `interface{}`; `SigningMethodHMAC.Sign` fails with
`key is of invalid type` unless the key is a byte slice. -/
inductive SignKey where
  | bytes (k : String)
  | wrongType
deriving DecidableEq, Repr

/-- A printable rendering of the signed compact token (the wire string the
handler writes; its exact byte format is irrelevant to the claims). -/
def encodeToken (tok : Token) : String :=
  tok.alg.name ++ "." ++ (match tok.claims.sub with
    | some (.str s) => s
    | _ => "") ++ "." ++ (match tok.claims.exp with
    | some e => toString e
    | none => "")

/-- `token.SignedString(key)` for the token `createToken` builds at time `t`:
with a byte-slice key it signs and returns the compact string, otherwise it
returns `("", error)`. -/
def signedString (cfg : Config) (t : Int) (key : SignKey) : Except String String :=
  match key with
  | .bytes k =>
      .ok (encodeToken
        { alg := .HS256
          claims := tokenClaims cfg t
          sig := some { key := k, alg := .HS256, claims := tokenClaims cfg t } })
  | .wrongType => .error "key is of invalid type"

/-- The tail of `createToken` (lines 168-169): `jwtToken, _ :=
token.SignedString([]byte("secret"))` followed by `w.Write([]byte(jwtToken))`.
The error result of signing is bound to `_`; on error `SignedString` returns
the empty string, which is what gets written. -/
def createTokenFinish (signResult : Except String String) (w : Response) : Response :=
  let jwtToken := match signResult with
    | .ok s => s
    | .error _ => ""
  w.write jwtToken

/-- `createToken` (lines 152-170) on a non-OPTIONS request: build the claim
set at time `t`, sign with the byte-slice key `"secret"`, write the result. -/
def createToken (cfg : Config) (t : Int) : Response :=
  createTokenFinish (signedString cfg t (.bytes "secret")) Response.fresh

/-- `authMiddleware` (lines 200-218) after the OPTIONS shortcut: on an
authentication error write `http.Error(w, err.Error(), 401)` and stop;
on success run the next handler. -/
def authMiddleware (authResult : Except String Identity) (next : Response) : Response :=
  match authResult with
  | .error e => Response.fresh.httpError e 401
  | .ok _ => next

/-- The separator octets of RFC 2616 as tabulated in
`golang/gddo/httputil/header` (`octetTypes`): `"()<>@,;:\\\"/[]?={} \t"`. -/
def isSeparatorChar (c : Char) : Bool :=
  c ∈ (" \t\"(),/:;<=>?@[]\\\x7b\x7d".toList)

/-- A token octet per the same table: a 7-bit character that is neither a
control character nor a separator. -/
def isTokenChar (c : Char) : Bool :=
  c.val ≤ 127 && !(c.val ≤ 31 || c.val = 127) && !(isSeparatorChar c)

/-- ASCII lower-casing of one character (`A`-`Z` to `a`-`z`). -/
def asciiLowerChar (c : Char) : Char :=
  if 65 ≤ c.toNat ∧ c.toNat ≤ 90 then Char.ofNat (c.toNat + 32) else c

/-- ASCII lower-casing of a string.  The media-type value below consists of
token octets only (7-bit, no letters outside A-Z/a-z are affected), so this
coincides with Go's `strings.ToLower` there; for struct-field matching it is
encoding/json's fold on ASCII names. -/
def asciiLower (s : String) : String :=
  (s.toList.map asciiLowerChar).asString

/-- `header.ParseValueAndParams(r.Header, "Content-Type")`, value part:
consume the longest leading run of token octets and slashes
(`expectTokenSlash`), then lowercase it; parameters after `;` are returned
separately and the handler ignores them. -/
def mediaTypeValue (s : String) : String :=
  asciiLower ((s.toList.takeWhile (fun c => isTokenChar c || c = '/')).asString)

/-- The `Policy` struct (lines 38-41): two `*int` fields, no json tags. -/
structure Policy where
  UnprocessableFileTypeAction : Option Int
  GlasswallBlockedFilesAction : Option Int
deriving DecidableEq, Repr

/-- The distinct errors `dec.Decode(&p)` can return, one per arm of the
handler's `switch` (the arms test `errors.As`/`errors.Is` on the error's
dynamic type, except the body-size arm, which compares the error text). -/
inductive DecodeErr where
  | syntaxErr (offset : Nat)
  | unexpectedEOF
  | unmarshalTypeErr (field : String) (offset : Nat)
  | unknownField (quoted : String)
  | bodyEOF
  | tooLarge
  | otherErr (msg : String)
deriving DecidableEq, Repr

/-- `err.Error()` for each decode error (the raw text the handler's first
`http.Error` writes).  `tooLarge` and `unknownField` are byte-exact because
the switch matches on those strings; the others are representative. -/
def DecodeErr.message : DecodeErr → String
  | .syntaxErr off => "invalid character (at position " ++ toString off ++ ")"
  | .unexpectedEOF => "unexpected EOF"
  | .unmarshalTypeErr f off =>
      "json: cannot unmarshal value into Go struct field Policy." ++ f ++
        " (at position " ++ toString off ++ ")"
  | .unknownField q => "json: unknown field " ++ q
  | .bodyEOF => "EOF"
  | .tooLarge => "http: request body too large"
  | .otherErr m => m

/-- encoding/json's field-name matching for a struct without json tags:
an incoming key matches a field name case-insensitively (exact match is
preferred but resolves to the same field here). -/
def jsonFieldMatch (key field : String) : Bool :=
  asciiLower key = asciiLower field

/-- Decode one object member into the `Policy` being built: bind a matching
numeric value, leave the field untouched on JSON `null`, fail with an
`UnmarshalTypeError` on a value of the wrong type, and fail with
`json: unknown field "k"` (the effect of `DisallowUnknownFields`) when the
key matches neither field. -/
def setField (p : Policy) (kv : String × Jval) : Except DecodeErr Policy :=
  if jsonFieldMatch kv.1 "UnprocessableFileTypeAction" then
    match kv.2 with
    | .num n => .ok { p with UnprocessableFileTypeAction := some n }
    | .null => .ok p
    | _ => .error (.unmarshalTypeErr "UnprocessableFileTypeAction" 0)
  else if jsonFieldMatch kv.1 "GlasswallBlockedFilesAction" then
    match kv.2 with
    | .num n => .ok { p with GlasswallBlockedFilesAction := some n }
    | .null => .ok p
    | _ => .error (.unmarshalTypeErr "GlasswallBlockedFilesAction" 0)
  else
    .error (.unknownField ("\"" ++ kv.1 ++ "\""))

/-- `dec.Decode(&p)` on a well-formed JSON object: fold the members in
document order into the zero `Policy` (both pointers nil), stopping at the
first decode error. -/
def decodePolicy (fields : List (String × Jval)) : Except DecodeErr Policy :=
  fields.foldlM setField { UnprocessableFileTypeAction := none, GlasswallBlockedFilesAction := none }

/-- The request body as the decoder sees it after `http.MaxBytesReader`:
either a well-formed JSON object within the 1048576-byte cap, or one of the
transport/syntax level failures. -/
inductive Body where
  | jsonObj (fields : List (String × Jval))
  | malformed (offset : Nat)
  | truncated
  | empty
  | tooLarge
deriving DecidableEq, Repr

/-- The overall outcome of `dec.Decode(&p)` for a `Body`. -/
def decodeBody (b : Body) : Except DecodeErr Policy :=
  match b with
  | .jsonObj fields => decodePolicy fields
  | .malformed off => .error (.syntaxErr off)
  | .truncated => .error .unexpectedEOF
  | .empty => .error .bodyEOF
  | .tooLarge => .error .tooLarge

/-- The decode-error arm of `updatePolicy` (lines 72-102).  Note the
unconditional `http.Error(w, err.Error(), http.StatusBadRequest)` issued
BEFORE the switch: it writes the header first, so the status the switch
picks (including 413 and 500) never reaches the client; the switch's message
is merely appended to the body. -/
def handleDecodeErr (e : DecodeErr) (w : Response) : Response :=
  let w1 := w.httpError e.message 400
  match e with
  | .syntaxErr off =>
      w1.httpError ("Request body contains badly-formed JSON (at position " ++ toString off ++ ")") 400
  | .unexpectedEOF =>
      w1.httpError "Request body contains badly-formed JSON" 400
  | .unmarshalTypeErr f off =>
      w1.httpError ("Request body contains an invalid value for the \"" ++ f ++ "\" field (at position " ++ toString off ++ ")") 400
  | .unknownField q =>
      w1.httpError ("Request body contains unknown field " ++ q) 400
  | .bodyEOF =>
      w1.httpError "Request body must not be empty" 400
  | .tooLarge =>
      w1.httpError "Request body must not be larger than 1MB" 413
  | .otherErr _ =>
      w1.httpError "Internal Server Error" 500

/-- The field checks of `updatePolicy` (lines 104-122), factored as a pure
validator: each arm mirrors one `if` in the handler, in source order, with
the source's exact message strings (including the double space in the
Glasswall range message). -/
def validatePolicy (p : Policy) : Except String Policy :=
  match p.UnprocessableFileTypeAction with
  | none => .error "UnprocessableFileTypeAction is required."
  | some u =>
    if u ≤ 0 ∨ u ≥ 5 then
      .error "UnprocessableFileTypeAction must be between 1-4 inclusive."
    else
      match p.GlasswallBlockedFilesAction with
      | none => .error "GlasswallBlockedFilesAction is required."
      | some g =>
        if g ≤ 0 ∨ g ≥ 5 then
          .error "GlasswallBlockedFilesAction  must be between 1-4 inclusive."
        else
          .ok p

/-- Outcomes of the two external-store steps (lines 135-147):
`args.GetClient()` and `args.UpdatePolicy()`. -/
inductive StoreOutcome where
  | storeOk
  | clientErr
  | updateErr
deriving DecidableEq, Repr

/-- `updatePolicy` after a successful decode: the four field checks (each a
400), then the store steps (each a 500), then the success body. -/
def validateAndStore (p : Policy) (s : StoreOutcome) (w : Response) : Response :=
  match validatePolicy p with
  | .error msg => w.httpError msg 400
  | .ok _ =>
    match s with
    | .clientErr => w.httpError "Something went wrong getting K8 Client." 500
    | .updateErr => w.httpError "Something went wrong when updating the config map." 500
    | .storeOk => w.write "Successfully updated config map."

/-- `updatePolicy` (lines 43-150): OPTIONS returns at once with only CORS
headers; a non-empty Content-Type whose parsed media type is not
`application/json` is a 415; then the body is decoded under the 1 MiB cap
and either the error arm or the validate-and-store arm runs. -/
def updatePolicy (method : String) (contentType : String) (b : Body) (s : StoreOutcome) : Response :=
  if method = "OPTIONS" then
    Response.fresh
  else if contentType ≠ "" ∧ mediaTypeValue contentType ≠ "application/json" then
    Response.fresh.httpError "Content-Type header is not application/json" 415
  else
    match decodeBody b with
    | .error e => handleDecodeErr e Response.fresh
    | .ok p => validateAndStore p s Response.fresh



/-- Helper: every arm of the decode-error switch yields client status 400,
because the pre-switch `http.Error(w, err.Error(), 400)` wrote the header
first and net/http ignores the later `WriteHeader`. -/
theorem handleDecodeErr_status (e : DecodeErr) :
    (handleDecodeErr e Response.fresh).status = 400 := by
  cases e <;> rfl

/-- Helper: the post-decode path only ever produces statuses 400, 500 or
200, never 415. -/
theorem validateAndStore_status_ne_415 (p : Policy) (s : StoreOutcome) :
    (validateAndStore p s Response.fresh).status ≠ 415 := by
  rcases h : validatePolicy p with msg | q <;> cases s <;>
    simp [validateAndStore, h, Response.httpError, Response.writeHeader, Response.write,
      Response.fresh]

/-- Helper: a field-validation error is delivered as a 400 response whose
body is the validator's message. -/
theorem validatePolicy_error_response (p : Policy) (msg : String) (s : StoreOutcome)
    (h : validatePolicy p = Except.error msg) :
    validateAndStore p s Response.fresh =
      { wroteHeader := true, status := 400, body := msg ++ "\n" } := by
  simp [validateAndStore, h]
  rfl

/-- Claim C1 (amended): for credentials equal to the configured pair, a token
issued by `createToken` at Unix second `t ≥ 0` verifies via `verifyToken`
and yields an Identity whose subject is the supplied (= configured) username
at any verification second up to AND INCLUDING `t + 300`; verification fails
only strictly after `t + 300` (jwt-go's `verifyExp` accepts `now <= exp`). -/
theorem c1_issue_then_verify_roundtrip (cfg : Config) (u pw : String) (t v : Int)
    (hauth : ∃ i, validateUser cfg u pw = Except.ok i) (ht : 0 ≤ t) :
    (v ≤ t + 300 → verifyToken (createTokenAt cfg t) v = VerifyOutcome.ok { subject := u }) ∧
    (t + 300 < v → verifyToken (createTokenAt cfg t) v = VerifyOutcome.err "Token is expired") := by
  obtain ⟨i, hi⟩ := hauth
  by_cases h : u = cfg.username ∧ pw = cfg.password
  case neg => simp [validateUser, h] at hi
  obtain ⟨hu, -⟩ := h
  subst hu
  have hexp : t + 300 ≠ 0 := by omega
  constructor
  · intro hv
    simp [verifyToken, createTokenAt, tokenClaims, Alg.isHMAC, expValid, hexp, hv]
  · intro hv
    have hnv : ¬ (v ≤ t + 300) := by omega
    simp [verifyToken, createTokenAt, tokenClaims, Alg.isHMAC, expValid, hexp, hnv]

/-- Claim C1 counterexample: a token issued at second 0 is still verified
successfully at second 300 = issuance + 5 minutes exactly, where the claim
requires verification to fail. -/
theorem c1_expiry_boundary_counterexample :
    verifyToken (createTokenAt { username := "admin", password := "pw" } 0) 300 =
      VerifyOutcome.ok { subject := "admin" } := by
  decide

/-- Claim C1 witness: concrete instance of the round trip at seconds 100
(success) and 301 (failure) for issuance at second 0. -/
theorem c1_roundtrip_witness :
    verifyToken (createTokenAt { username := "admin", password := "pw" } 0) 100 =
      VerifyOutcome.ok { subject := "admin" } ∧
    verifyToken (createTokenAt { username := "admin", password := "pw" } 0) 301 =
      VerifyOutcome.err "Token is expired" :=
  ⟨(c1_issue_then_verify_roundtrip { username := "admin", password := "pw" } "admin" "pw" 0 100
      ⟨{ subject := "admin" }, rfl⟩ (by decide)).1 (by decide),
   (c1_issue_then_verify_roundtrip { username := "admin", password := "pw" } "admin" "pw" 0 301
      ⟨{ subject := "admin" }, rfl⟩ (by decide)).2 (by decide)⟩

/-- Claim C2: for a body with exactly the two policy fields, decoding binds
exactly the supplied integers and validation succeeds iff both lie in
[1,4]; a missing field or an out-of-range value fails with the distinct
400 message naming that field (the response link is the last-but-one
conjunct; the four messages are pairwise distinct). -/
theorem c2_policy_field_validation (u g : Int) :
    (1 ≤ u ∧ u ≤ 4 ∧ 1 ≤ g ∧ g ≤ 4 →
      decodePolicy [("unprocessableFileTypeAction", Jval.num u), ("glasswallBlockedFilesAction", Jval.num g)] =
        Except.ok { UnprocessableFileTypeAction := some u, GlasswallBlockedFilesAction := some g } ∧
      validatePolicy { UnprocessableFileTypeAction := some u, GlasswallBlockedFilesAction := some g } =
        Except.ok { UnprocessableFileTypeAction := some u, GlasswallBlockedFilesAction := some g }) ∧
    (decodePolicy [("glasswallBlockedFilesAction", Jval.num g)] =
        Except.ok { UnprocessableFileTypeAction := none, GlasswallBlockedFilesAction := some g } ∧
      validatePolicy { UnprocessableFileTypeAction := none, GlasswallBlockedFilesAction := some g } =
        Except.error "UnprocessableFileTypeAction is required.") ∧
    ((u < 1 ∨ 4 < u) →
      validatePolicy { UnprocessableFileTypeAction := some u, GlasswallBlockedFilesAction := some g } =
        Except.error "UnprocessableFileTypeAction must be between 1-4 inclusive.") ∧
    (1 ≤ u ∧ u ≤ 4 →
      decodePolicy [("unprocessableFileTypeAction", Jval.num u)] =
        Except.ok { UnprocessableFileTypeAction := some u, GlasswallBlockedFilesAction := none } ∧
      validatePolicy { UnprocessableFileTypeAction := some u, GlasswallBlockedFilesAction := none } =
        Except.error "GlasswallBlockedFilesAction is required.") ∧
    (1 ≤ u ∧ u ≤ 4 ∧ (g < 1 ∨ 4 < g) →
      validatePolicy { UnprocessableFileTypeAction := some u, GlasswallBlockedFilesAction := some g } =
        Except.error "GlasswallBlockedFilesAction  must be between 1-4 inclusive.") ∧
    (∀ p msg s, validatePolicy p = Except.error msg →
      validateAndStore p s Response.fresh =
        { wroteHeader := true, status := 400, body := msg ++ "\n" }) ∧
    List.Pairwise (· ≠ ·) ["UnprocessableFileTypeAction is required.",
      "UnprocessableFileTypeAction must be between 1-4 inclusive.",
      "GlasswallBlockedFilesAction is required.",
      "GlasswallBlockedFilesAction  must be between 1-4 inclusive."] := by
  refine ⟨?_, ⟨rfl, rfl⟩, ?_, ?_, ?_, validatePolicy_error_response, by decide⟩
  · rintro ⟨hu1, hu4, hg1, hg4⟩
    have hu : ¬(u ≤ 0 ∨ u ≥ 5) := by omega
    have hg : ¬(g ≤ 0 ∨ g ≥ 5) := by omega
    exact ⟨rfl, by simp [validatePolicy, hu, hg]⟩
  · intro hr
    have hu : u ≤ 0 ∨ u ≥ 5 := by omega
    simp [validatePolicy, hu]
  · rintro ⟨hu1, hu4⟩
    have hu : ¬(u ≤ 0 ∨ u ≥ 5) := by omega
    exact ⟨rfl, by simp [validatePolicy, hu]⟩
  · rintro ⟨hu1, hu4, hr⟩
    have hu : ¬(u ≤ 0 ∨ u ≥ 5) := by omega
    have hg : g ≤ 0 ∨ g ≥ 5 := by omega
    simp [validatePolicy, hu, hg]

/-- Claim C2 witness: an in-range Glasswall value 7 is rejected with the
message naming that field, obtained from the validation theorem at
concrete inputs 2 and 7. -/
theorem c2_validation_witness :
    validatePolicy { UnprocessableFileTypeAction := some 2, GlasswallBlockedFilesAction := some 7 } =
      Except.error "GlasswallBlockedFilesAction  must be between 1-4 inclusive." :=
  (c2_policy_field_validation 2 7).2.2.2.2.1 (by decide)

/-- Claim C3 (code bug, evaluated at the failing input): a PUT with an
over-cap body is answered with status 400, not 413 — the unconditional
`http.Error(w, err.Error(), 400)` before the switch wins, and the 413 arm
only appends its message to the body. -/
theorem c3_too_large_body_gets_400 :
    updatePolicy "PUT" "application/json" Body.tooLarge StoreOutcome.storeOk =
      { wroteHeader := true, status := 400,
        body := "http: request body too large\nRequest body must not be larger than 1MB\n" } := by
  decide

/-- Claim C4 (amended): an authentication failure is answered with status
401 whose body is exactly the underlying error's message (`err.Error()`),
i.e. the specific failure reason IS echoed to the client. -/
theorem c4_auth_failure_echoes_reason (e : String) (next : Response) :
    authMiddleware (Except.error e) next =
      { wroteHeader := true, status := 401, body := e ++ "\n" } := rfl

/-- Claim C4 counterexample: the expired-token failure puts its specific
reason, `Token is expired`, verbatim into the 401 response body, where the
claim requires a generic message only. -/
theorem c4_generic_message_counterexample :
    verifyToken (createTokenAt { username := "admin", password := "pw" } 0) 1000 =
      VerifyOutcome.err "Token is expired" ∧
    authMiddleware (Except.error "Token is expired") Response.fresh =
      { wroteHeader := true, status := 401, body := "Token is expired\n" } := ⟨rfl, rfl⟩

/-- Claim C4 witness: concrete instance of the echo theorem for the
bad-credentials failure. -/
theorem c4_echo_witness :
    authMiddleware (Except.error "Invalid credentials") Response.fresh =
      { wroteHeader := true, status := 401, body := "Invalid credentials\n" } :=
  c4_auth_failure_echoes_reason "Invalid credentials" Response.fresh

/-- Claim C5 (amended): a failure of the token-signing step is silently
ignored — the error is discarded (`jwtToken, _ :=`), and the handler
responds 200 with an empty token body, for every signing error. -/
theorem c5_signing_failure_ignored (e : String) :
    createTokenFinish (Except.error e) Response.fresh =
      { wroteHeader := true, status := 200, body := "" } := rfl

/-- Claim C5 counterexample: the concrete signing failure of jwt-go
(`key is of invalid type`) yields exactly a 200 response with an empty
token body, where the claim requires a server error. -/
theorem c5_silent_ignore_counterexample :
    createTokenFinish (Except.error "key is of invalid type") Response.fresh =
      { wroteHeader := true, status := 200, body := "" } := rfl

/-- Claim C5 witness: concrete instance of the ignore theorem. -/
theorem c5_ignore_witness :
    createTokenFinish (Except.error "hmac failure") Response.fresh =
      { wroteHeader := true, status := 200, body := "" } :=
  c5_signing_failure_ignored "hmac failure"

/-- Claim C6: any token whose header algorithm is not an HMAC scheme, or
which is signed with a key other than the configured `"secret"`, is
rejected by `verifyToken` with an error, for every verification time and
regardless of its claims. -/
theorem c6_alg_or_key_mismatch_rejected (tok : Token) (now : Int)
    (h : tok.alg.isHMAC = false ∨ ∃ s, tok.sig = some s ∧ s.key ≠ "secret") :
    ∃ msg, verifyToken tok now = VerifyOutcome.err msg := by
  rcases h with h | ⟨s, hs, hk⟩
  · refine ⟨"Unexpected signing method: " ++ tok.alg.name, ?_⟩
    simp [verifyToken, h]
  · cases halg : tok.alg.isHMAC
    case false =>
      refine ⟨"Unexpected signing method: " ++ tok.alg.name, ?_⟩
      simp [verifyToken, halg]
    case true =>
      have hne : tok.sig ≠ some { key := "secret", alg := tok.alg, claims := tok.claims } := by
        rw [hs]
        intro hcon
        apply hk
        have := Option.some.inj hcon
        exact congrArg Sig.key this
      refine ⟨"signature is invalid", ?_⟩
      simp [verifyToken, halg, hne]

/-- Claim C6 witness: an RS256 token with otherwise valid-looking claims is
rejected, obtained from the mismatch theorem. -/
theorem c6_mismatch_witness :
    ∃ msg, verifyToken
      (Token.mk Alg.RS256 (tokenClaims (Config.mk "admin" "pw") 0)
        (some (Sig.mk "secret" Alg.RS256 (tokenClaims (Config.mk "admin" "pw") 0)))) 0 =
      VerifyOutcome.err msg :=
  c6_alg_or_key_mismatch_rejected _ 0 (Or.inl rfl)

/-- Claim C7: `validateUser` succeeds exactly when both supplied fields
simultaneously equal the configured pair, and every failing pair produces
the identical observable result, so the outcome does not reveal which of
the two fields failed. -/
theorem c7_validate_user_uniform_failure (cfg : Config) :
    (∀ u p, (∃ i, validateUser cfg u p = Except.ok i) ↔ (u = cfg.username ∧ p = cfg.password)) ∧
    (∀ u1 p1 u2 p2, ¬(u1 = cfg.username ∧ p1 = cfg.password) →
      ¬(u2 = cfg.username ∧ p2 = cfg.password) →
      validateUser cfg u1 p1 = validateUser cfg u2 p2) := by
  constructor
  · intro u p
    constructor
    · rintro ⟨i, hi⟩
      by_cases h : u = cfg.username ∧ p = cfg.password
      · exact h
      · simp [validateUser, h] at hi
    · intro h
      refine ⟨{ subject := u }, ?_⟩
      simp [validateUser, h]
  · intro u1 p1 u2 p2 h1 h2
    simp [validateUser, h1, h2]

/-- Claim C7 witness: a wrong-password attempt and a wrong-username attempt
observably coincide, obtained from the uniform-failure theorem. -/
theorem c7_uniform_failure_witness :
    validateUser { username := "admin", password := "hunter2" } "admin" "wrong" =
      validateUser { username := "admin", password := "hunter2" } "intruder" "hunter2" :=
  (c7_validate_user_uniform_failure { username := "admin", password := "hunter2" }).2
    "admin" "wrong" "intruder" "hunter2" (by decide) (by decide)

/-- Claim C8 (amended): a PUT request is answered 415 exactly when a
Content-Type header is present and its parsed media type — the leading
token/slash run, lowercased, parameters dropped — differs from
`application/json`; in particular `application/json` with parameters or in
different case is accepted. -/
theorem c8_content_type_media_type_gate (ct : String) (b : Body) (s : StoreOutcome) :
    (updatePolicy "PUT" ct b s).status = 415 ↔
      (ct ≠ "" ∧ mediaTypeValue ct ≠ "application/json") := by
  constructor
  · intro h
    by_cases hc : ct ≠ "" ∧ mediaTypeValue ct ≠ "application/json"
    · exact hc
    · exfalso
      rw [updatePolicy, if_neg (by decide), if_neg hc] at h
      rcases hd : decodeBody b with e | p
      · rw [hd] at h
        rw [handleDecodeErr_status] at h
        exact absurd h (by decide)
      · rw [hd] at h
        exact validateAndStore_status_ne_415 p s h
  · intro hc
    rw [updatePolicy, if_neg (by decide), if_pos hc]
    rfl

/-- Claim C8 counterexample: the header `application/json; charset=utf-8`
is not exactly `application/json`, yet the request is not answered 415 —
it proceeds into body decoding (here failing 400 on an empty body). -/
theorem c8_parameters_accepted_counterexample :
    ("application/json; charset=utf-8" ≠ "application/json") ∧
    (updatePolicy "PUT" "application/json; charset=utf-8" Body.empty StoreOutcome.storeOk).status
      = 400 := by
  decide

/-- Claim C8 witness: a `text/plain` PUT is answered 415, obtained from the
gate theorem. -/
theorem c8_gate_witness :
    (updatePolicy "PUT" "text/plain" Body.empty StoreOutcome.storeOk).status = 415 :=
  (c8_content_type_media_type_gate "text/plain" Body.empty StoreOutcome.storeOk).mpr (by decide)

/-- Claim C9: a token correctly HMAC-signed with the configured key and
carrying an unexpired numeric expiry but no `sub` claim drives
`verifyToken` into the unchecked type assertion `claims["sub"].(string)`,
which panics instead of returning an authentication error. -/
theorem c9_missing_sub_panics :
    (Token.mk Alg.HS256
        (Claims.mk (some (Jval.str "auth-app")) none (some (Jval.str "any")) (some 1000))
        (some (Sig.mk "secret" Alg.HS256
          (Claims.mk (some (Jval.str "auth-app")) none (some (Jval.str "any")) (some 1000))))).alg.isHMAC
      = true ∧
    expValid (some 1000) 0 = true ∧
    verifyToken
      (Token.mk Alg.HS256
        (Claims.mk (some (Jval.str "auth-app")) none (some (Jval.str "any")) (some 1000))
        (some (Sig.mk "secret" Alg.HS256
          (Claims.mk (some (Jval.str "auth-app")) none (some (Jval.str "any")) (some 1000))))) 0 =
      VerifyOutcome.panic := ⟨rfl, rfl, rfl⟩

/-- Claim C10: field keys are matched ASCII-case-insensitively — any case
variants of the two field names are decoded and bound to the corresponding
`Policy` fields, and the unknown-field rejection fires exactly for keys
matching neither name case-insensitively. -/
theorem c10_case_insensitive_field_match :
    (∀ (k1 k2 : String) (u g : Int),
      asciiLower k1 = asciiLower "UnprocessableFileTypeAction" →
      asciiLower k2 = asciiLower "GlasswallBlockedFilesAction" →
      decodePolicy [(k1, Jval.num u), (k2, Jval.num g)] =
        Except.ok { UnprocessableFileTypeAction := some u, GlasswallBlockedFilesAction := some g }) ∧
    (∀ (k : String) (v : Jval),
      asciiLower k ≠ asciiLower "UnprocessableFileTypeAction" →
      asciiLower k ≠ asciiLower "GlasswallBlockedFilesAction" →
      decodePolicy [(k, v)] = Except.error (.unknownField ("\"" ++ k ++ "\""))) := by
  constructor
  · intro k1 k2 u g h1 h2
    have h2u : asciiLower k2 ≠ asciiLower "UnprocessableFileTypeAction" := by
      rw [h2]; decide
    have m1 : jsonFieldMatch k1 "UnprocessableFileTypeAction" = true := by
      simp [jsonFieldMatch, h1]
    have m2u : jsonFieldMatch k2 "UnprocessableFileTypeAction" = false := by
      simp [jsonFieldMatch, h2u]
    have m2 : jsonFieldMatch k2 "GlasswallBlockedFilesAction" = true := by
      simp [jsonFieldMatch, h2]
    simp [decodePolicy, List.foldlM, setField, m1, m2u, m2]
    rfl
  · intro k v h1 h2
    have m1 : jsonFieldMatch k "UnprocessableFileTypeAction" = false := by
      simp [jsonFieldMatch, h1]
    have m2 : jsonFieldMatch k "GlasswallBlockedFilesAction" = false := by
      simp [jsonFieldMatch, h2]
    simp [decodePolicy, List.foldlM, setField, m1, m2]

/-- Claim C10 witness: the all-caps variant of the first field name and the
lower-camel variant of the second are both accepted and bound, obtained
from the case-insensitivity theorem. -/
theorem c10_case_insensitive_witness :
    decodePolicy [("UNPROCESSABLEFILETYPEACTION", Jval.num 2), ("glasswallBlockedFilesAction", Jval.num 3)] =
      Except.ok { UnprocessableFileTypeAction := some 2, GlasswallBlockedFilesAction := some 3 } :=
  c10_case_insensitive_field_match.1 "UNPROCESSABLEFILETYPEACTION" "glasswallBlockedFilesAction"
    2 3 (by decide) (by decide)
